import Mathlib

/-!
Verification development for the LeakGuard indicator-extraction,
credential-match and alert-deduplication engine.

The Python sources are shallowly embedded: regular-expression based
extraction is modelled by a small backtracking parser-combinator engine
(results in priority order, head = the match Python's `re` would return),
scoring functions are translated directly, and the stateful alert store is
modelled by explicit state passing over a list of alert records.
-/

/-- Word characters for the regex `\b` boundary (ASCII `[A-Za-z0-9_]`). -/
def isWordChar (c : Char) : Bool :=
  c.isAlpha || c.isDigit || c = '_'

/-- Whitespace characters of Python's regex class `\s` (ASCII). -/
def isPySpace (c : Char) : Bool :=
  c = ' ' || c = '\t' || c = '\n' || c = '\r' || c = '\x0c' || c = '\x0b'

/-- Lowercase a character sequence, modelling Python `str.lower` on ASCII. -/
def lowerList (s : List Char) : List Char :=
  s.map Char.toLower

/-- Substring containment, modelling Python's `needle in hay` on strings. -/
def containsSubstr (needle : List Char) : List Char → Bool
  | [] => needle.isEmpty
  | c :: rest => needle.isPrefixOf (c :: rest) || containsSubstr needle rest

/-- The suffix of `hay` just after the first occurrence of `needle`,
`none` when `needle` does not occur. -/
def afterSubstr (needle : List Char) : List Char → Option (List Char)
  | [] => none
  | c :: rest =>
    if needle.isPrefixOf (c :: rest) then some ((c :: rest).drop needle.length)
    else afterSubstr needle rest

/-- Whether `s` contains a run of at least `n` consecutive decimal digits,
modelling `re.search(r'\d{n,}', s)`. -/
def hasDigitRun (n : Nat) : List Char → Bool
  | [] => decide (n = 0)
  | c :: rest => ((c :: rest).take n).all Char.isDigit && decide (n ≤ rest.length + 1)
      || hasDigitRun n rest

/-- Strip characters satisfying `f` from both ends, modelling `str.strip`. -/
def stripChars (f : Char → Bool) (s : List Char) : List Char :=
  ((s.dropWhile f).reverse.dropWhile f).reverse

/-- Python `match.strip('"\'')`: strip surrounding quote characters. -/
def stripQuotes (s : List Char) : List Char :=
  stripChars (fun c => c = '"' || c = '\'') s

/-- Python `str.strip()` with no argument: strip surrounding whitespace. -/
def pyStrip (s : List Char) : List Char :=
  stripChars isPySpace s

/-- First-occurrence-keeping deduplication with an accumulator of already
seen values, modelling the `seen`-set loops and `list(set(...))` calls of
the Python code (those only feed value sets and counts downstream, so any
duplicate-free enumeration is a faithful model). -/
def dedupAux [DecidableEq α] (seen : List α) : List α → List α
  | [] => []
  | a :: rest =>
    if a ∈ seen then dedupAux seen rest
    else a :: dedupAux (a :: seen) rest

/-- Deduplicate keeping first occurrences. -/
def dedupKeep [DecidableEq α] (l : List α) : List α :=
  dedupAux [] l

/-! ## A tiny backtracking regex engine

A parser receives the previously consumed character (for `\b`) and the
remaining input, and returns every way to match a prefix, in priority
order: the head of the list is the alternative Python's backtracking
`re` engine commits to. -/

/-- Nondeterministic prefix parser: previous character, remaining input ↦
list of (semantic value, new previous character, remaining input) in
priority order. -/
def RxP (α : Type) : Type :=
  Option Char → List Char → List (α × Option Char × List Char)

/-- Parser returning `a` without consuming input. -/
def rxPure (a : α) : RxP α := fun prev l => [(a, prev, l)]

/-- Sequencing of parsers, preserving priority order. -/
def rxBind (p : RxP α) (f : α → RxP β) : RxP β := fun prev l =>
  (p prev l).flatMap (fun r => f r.1 r.2.1 r.2.2)

/-- Map over a parser's result. -/
def rxMap (f : α → β) (p : RxP α) : RxP β :=
  rxBind p (fun a => rxPure (f a))

/-- Ordered alternation: all results of `p` before all results of `q`,
modelling the left bias of regex `|`. -/
def rxAlt (p q : RxP α) : RxP α := fun prev l =>
  p prev l ++ q prev l

/-- The failing parser. -/
def rxFail : RxP α := fun _ _ => []

/-- Match one character satisfying `f` (a regex character class). -/
def rxChar (f : Char → Bool) : RxP Char := fun _ l =>
  match l with
  | [] => []
  | c :: rest => if f c then [(c, some c, rest)] else []

/-- Longest prefix of characters satisfying `f`, and the rest. -/
def takeRun (f : Char → Bool) : List Char → List Char × List Char
  | [] => ([], [])
  | c :: rest =>
    if f c then
      let r := takeRun f rest
      (c :: r.1, r.2)
    else ([], c :: rest)

/-- The previous-character marker after consuming `taken`. -/
def prevAfter (prev : Option Char) (taken : List Char) : Option Char :=
  match taken.getLast? with
  | some c => some c
  | none => prev

/-- Greedy bounded repetition `f{lo,hi}` of a character class: all ways to
take between `lo` and `hi` characters satisfying `f`, longest first. -/
def rxCharsBetween (f : Char → Bool) (lo hi : Nat) : RxP (List Char) := fun prev l =>
  let r := takeRun f l
  (((List.range (min hi r.1.length + 1)).reverse).filter (fun k => lo ≤ k)).map
    (fun k => (r.1.take k, prevAfter prev (r.1.take k), r.1.drop k ++ r.2))

/-- Greedy unbounded repetition `f{lo,}` of a character class. -/
def rxCharsGE (f : Char → Bool) (lo : Nat) : RxP (List Char) := fun prev l =>
  let r := takeRun f l
  (((List.range (r.1.length + 1)).reverse).filter (fun k => lo ≤ k)).map
    (fun k => (r.1.take k, prevAfter prev (r.1.take k), r.1.drop k ++ r.2))

/-- Zero-width word-boundary assertion, regex `\b`. -/
def rxBoundary : RxP Unit := fun prev l =>
  let pw := match prev with
    | some c => isWordChar c
    | none => false
  let nw := match l with
    | c :: _ => isWordChar c
    | [] => false
  if pw ≠ nw then [((), prev, l)] else []

/-- Literal-string matching helper; `ci` selects case-insensitive mode. -/
def rxLitAux (ci : Bool) : List Char → Option Char → List Char →
    Option (Option Char × List Char)
  | [], prev, l => some (prev, l)
  | c :: cs, _, l =>
    match l with
    | [] => none
    | d :: rest =>
      if (if ci then d.toLower = c.toLower else d = c) then rxLitAux ci cs (some d) rest
      else none

/-- Match a literal string (case-insensitively when `ci` is true). -/
def rxLit (ci : Bool) (s : List Char) : RxP Unit := fun prev l =>
  match rxLitAux ci s prev l with
  | some r => [((), r.1, r.2)]
  | none => []

/-- Greedy option, regex `p?`: try `p` first, then the empty match. -/
def rxOpt (p : RxP α) : RxP (Option α) :=
  rxAlt (rxMap some p) (rxPure none)

/-- Greedy repetition of a compound parser with explicit fuel (regex
`(p)+`, more iterations preferred). Every use repeats a parser consuming
at least one character, so fuel `input length + 1` is exhaustive. -/
def rxRep1Fuel (p : RxP α) : Nat → RxP (List α)
  | 0 => rxFail
  | fuel + 1 =>
    rxBind p (fun a =>
      rxAlt (rxMap (fun as => a :: as) (rxRep1Fuel p fuel)) (rxPure [a]))

/-- Greedy repetition `(p)+` of a compound parser. -/
def rxRep1 (p : RxP α) : RxP (List α) := fun prev l =>
  rxRep1Fuel p (l.length + 1) prev l

/-- Scanning loop of `re.findall`: at each position try the pattern; on
success emit the committed (highest-priority) match and continue after it,
otherwise advance one character. -/
def scanAux (p : RxP α) : Nat → Option Char → List Char → List α
  | 0, _, _ => []
  | fuel + 1, prev, l =>
    match p prev l with
    | r :: _ =>
      if r.2.2.length < l.length then r.1 :: scanAux p fuel r.2.1 r.2.2
      else
        match l with
        | [] => [r.1]
        | c :: rest => r.1 :: scanAux p fuel (some c) rest
    | [] =>
      match l with
      | [] => []
      | c :: rest => scanAux p fuel (some c) rest

/-- Model of `re.findall pattern text`: the values of all non-overlapping
matches, scanning left to right. -/
def findall (p : RxP α) (s : List Char) : List α :=
  scanAux p (s.length + 1) none s

/-! ## Pattern Extractor (`socradar/file_processor.py`)

The `FileProcessor.patterns` table, each compiled pattern transcribed
into the engine above. -/

/-- Class `[A-Za-z0-9._%+-]` (local part of an email address). -/
def emailLocalChar (c : Char) : Bool :=
  c.isAlpha || c.isDigit || c = '.' || c = '_' || c = '%' || c = '+' || c = '-'

/-- Class `[A-Za-z0-9.-]` (host part of an email address). -/
def emailHostChar (c : Char) : Bool :=
  c.isAlpha || c.isDigit || c = '.' || c = '-'

/-- Class `[A-Z|a-z]` of the email pattern's top-level-domain part (the
Python class literally includes the `|` character). -/
def tldChar (c : Char) : Bool :=
  c.isAlpha || c = '|'

/-- Class `[a-zA-Z0-9]`. -/
def alnumChar (c : Char) : Bool :=
  c.isAlpha || c.isDigit

/-- Class `[a-zA-Z0-9-]`. -/
def labelChar (c : Char) : Bool :=
  c.isAlpha || c.isDigit || c = '-'

/-- Class `[^\s\n\r]`: any non-whitespace character. -/
def nonSpaceChar (c : Char) : Bool :=
  !isPySpace c

/-- Class `[-.\s]` of the phone pattern. -/
def phoneSepChar (c : Char) : Bool :=
  c = '-' || c = '.' || isPySpace c

/-- Email body `[A-Za-z0-9._%+-]+@[A-Za-z0-9.-]+\.[A-Z|a-z]{2,}` without
surrounding word boundaries, returning the matched text. -/
def emailBodyP : RxP (List Char) :=
  rxBind (rxCharsGE emailLocalChar 1) (fun lp =>
  rxBind (rxChar (fun c => c = '@')) (fun at_ =>
  rxBind (rxCharsGE emailHostChar 1) (fun hp =>
  rxBind (rxChar (fun c => c = '.')) (fun dot =>
  rxBind (rxCharsGE tldChar 2) (fun tld =>
  rxPure (lp ++ at_ :: hp ++ dot :: tld))))))

/-- Pattern `email`: `\b[A-Za-z0-9._%+-]+@[A-Za-z0-9.-]+\.[A-Z|a-z]{2,}\b`. -/
def emailP : RxP (List Char) :=
  rxBind rxBoundary (fun _ =>
  rxBind emailBodyP (fun em =>
  rxBind rxBoundary (fun _ =>
  rxPure em)))

/-- Pattern `password`: `(?i)(?:password|pass|pwd)\s*[:=]\s*([^\s\n\r]+)`,
returning capture group 1. -/
def passwordP : RxP (List Char) :=
  rxBind (rxAlt (rxLit true "password".data)
          (rxAlt (rxLit true "pass".data) (rxLit true "pwd".data))) (fun _ =>
  rxBind (rxCharsGE isPySpace 0) (fun _ =>
  rxBind (rxChar (fun c => c = ':' || c = '=')) (fun _ =>
  rxBind (rxCharsGE isPySpace 0) (fun _ =>
  rxBind (rxCharsGE nonSpaceChar 1) (fun pw =>
  rxPure pw)))))

/-- Pattern `username`: `(?i)(?:username|user|login)\s*[:=]\s*([^\s\n\r]+)`,
returning capture group 1. -/
def usernameP : RxP (List Char) :=
  rxBind (rxAlt (rxLit true "username".data)
          (rxAlt (rxLit true "user".data) (rxLit true "login".data))) (fun _ =>
  rxBind (rxCharsGE isPySpace 0) (fun _ =>
  rxBind (rxChar (fun c => c = ':' || c = '=')) (fun _ =>
  rxBind (rxCharsGE isPySpace 0) (fun _ =>
  rxBind (rxCharsGE nonSpaceChar 1) (fun un =>
  rxPure un)))))

/-- One DNS label plus trailing dot:
`(?:[a-zA-Z0-9](?:[a-zA-Z0-9-]{0,61}[a-zA-Z0-9])?)\.`. -/
def domainLabelP : RxP (List Char) :=
  rxBind (rxChar alnumChar) (fun c0 =>
  rxBind (rxOpt (rxBind (rxCharsBetween labelChar 0 61) (fun mid =>
                 rxBind (rxChar alnumChar) (fun cl =>
                 rxPure (mid ++ [cl]))))) (fun rest =>
  rxBind (rxChar (fun c => c = '.')) (fun dot =>
  rxPure (c0 :: rest.getD [] ++ [dot]))))

/-- Pattern `domain`:
`\b(?:[a-zA-Z0-9](?:[a-zA-Z0-9-]{0,61}[a-zA-Z0-9])?\.)+[a-zA-Z]{2,}\b`. -/
def domainP : RxP (List Char) :=
  rxBind rxBoundary (fun _ =>
  rxBind (rxRep1 domainLabelP) (fun labs =>
  rxBind (rxCharsGE Char.isAlpha 2) (fun tld =>
  rxBind rxBoundary (fun _ =>
  rxPure (labs.flatten ++ tld)))))

/-- Pattern `ip_address`: `\b(?:[0-9]{1,3}\.){3}[0-9]{1,3}\b`. -/
def ipP : RxP (List Char) :=
  rxBind rxBoundary (fun _ =>
  rxBind (rxCharsBetween Char.isDigit 1 3) (fun o1 =>
  rxBind (rxChar (fun c => c = '.')) (fun d1 =>
  rxBind (rxCharsBetween Char.isDigit 1 3) (fun o2 =>
  rxBind (rxChar (fun c => c = '.')) (fun d2 =>
  rxBind (rxCharsBetween Char.isDigit 1 3) (fun o3 =>
  rxBind (rxChar (fun c => c = '.')) (fun d3 =>
  rxBind (rxCharsBetween Char.isDigit 1 3) (fun o4 =>
  rxBind rxBoundary (fun _ =>
  rxPure (o1 ++ d1 :: o2 ++ d2 :: o3 ++ d3 :: o4))))))))))

/-- Pattern `phone`:
`\b(?:\+?1[-.\s]?)?\(?[0-9]{3}\)?[-.\s]?[0-9]{3}[-.\s]?[0-9]{4}\b`. -/
def phoneP : RxP (List Char) :=
  rxBind rxBoundary (fun _ =>
  rxBind (rxOpt (rxBind (rxOpt (rxChar (fun c => c = '+'))) (fun pl =>
                 rxBind (rxChar (fun c => c = '1')) (fun one =>
                 rxBind (rxOpt (rxChar phoneSepChar)) (fun s0 =>
                 rxPure ((pl.toList) ++ one :: s0.toList)))))) (fun pre =>
  rxBind (rxOpt (rxChar (fun c => c = '('))) (fun op =>
  rxBind (rxCharsBetween Char.isDigit 3 3) (fun d1 =>
  rxBind (rxOpt (rxChar (fun c => c = ')'))) (fun cp =>
  rxBind (rxOpt (rxChar phoneSepChar)) (fun s1 =>
  rxBind (rxCharsBetween Char.isDigit 3 3) (fun d2 =>
  rxBind (rxOpt (rxChar phoneSepChar)) (fun s2 =>
  rxBind (rxCharsBetween Char.isDigit 4 4) (fun d3 =>
  rxBind rxBoundary (fun _ =>
  rxPure (pre.getD [] ++ op.toList ++ d1 ++ cp.toList ++ s1.toList ++
          d2 ++ s2.toList ++ d3)))))))))))

/-- Pattern `credit_card`:
`\b(?:4[0-9]{12}(?:[0-9]{3})?|5[1-5][0-9]{14}|3[47][0-9]{13}|3[0-9]{13}|6(?:011|5[0-9]{2})[0-9]{12})\b`. -/
def creditCardP : RxP (List Char) :=
  rxBind rxBoundary (fun _ =>
  rxBind
    (rxAlt
      (rxBind (rxChar (fun c => c = '4')) (fun c4 =>
       rxBind (rxCharsBetween Char.isDigit 12 12) (fun d12 =>
       rxBind (rxOpt (rxCharsBetween Char.isDigit 3 3)) (fun d3 =>
       rxPure (c4 :: d12 ++ d3.getD [])))))
    (rxAlt
      (rxBind (rxChar (fun c => c = '5')) (fun c5 =>
       rxBind (rxChar (fun c => '1' ≤ c && c ≤ '5')) (fun c15 =>
       rxBind (rxCharsBetween Char.isDigit 14 14) (fun d14 =>
       rxPure (c5 :: c15 :: d14)))))
    (rxAlt
      (rxBind (rxChar (fun c => c = '3')) (fun c3 =>
       rxBind (rxChar (fun c => c = '4' || c = '7')) (fun c47 =>
       rxBind (rxCharsBetween Char.isDigit 13 13) (fun d13 =>
       rxPure (c3 :: c47 :: d13)))))
    (rxAlt
      (rxBind (rxChar (fun c => c = '3')) (fun c3 =>
       rxBind (rxCharsBetween Char.isDigit 13 13) (fun d13 =>
       rxPure (c3 :: d13))))
      (rxBind (rxChar (fun c => c = '6')) (fun c6 =>
       rxBind (rxAlt (rxMap (fun _ => "011".data) (rxLit false "011".data))
                     (rxBind (rxChar (fun c => c = '5')) (fun c5 =>
                      rxBind (rxCharsBetween Char.isDigit 2 2) (fun d2 =>
                      rxPure (c5 :: d2))))) (fun mid =>
       rxBind (rxCharsBetween Char.isDigit 12 12) (fun d12 =>
       rxPure (c6 :: mid ++ d12))))))))) (fun cc =>
  rxBind rxBoundary (fun _ =>
  rxPure cc)))

/-- Pattern `ssn`: `\b(?:[0-9]{3}-[0-9]{2}-[0-9]{4}|[0-9]{9})\b`. -/
def ssnP : RxP (List Char) :=
  rxBind rxBoundary (fun _ =>
  rxBind
    (rxAlt
      (rxBind (rxCharsBetween Char.isDigit 3 3) (fun d1 =>
       rxBind (rxChar (fun c => c = '-')) (fun h1 =>
       rxBind (rxCharsBetween Char.isDigit 2 2) (fun d2 =>
       rxBind (rxChar (fun c => c = '-')) (fun h2 =>
       rxBind (rxCharsBetween Char.isDigit 4 4) (fun d3 =>
       rxPure (d1 ++ h1 :: d2 ++ h2 :: d3)))))))
      (rxCharsBetween Char.isDigit 9 9)) (fun s =>
  rxBind rxBoundary (fun _ =>
  rxPure s)))

/-- One of the two credential-pair patterns of `_extract_structured_data`:
`([A-Za-z0-9._%+-]+@[A-Za-z0-9.-]+\.[A-Z|a-z]{2,})\s*SEP\s*([^\s\n\r]+)`
with `SEP` the separator class (`[:|]` or `[,;]`), returning the two
capture groups. -/
def credPairP (sep : Char → Bool) : RxP (List Char × List Char) :=
  rxBind emailBodyP (fun em =>
  rxBind (rxCharsGE isPySpace 0) (fun _ =>
  rxBind (rxChar sep) (fun _ =>
  rxBind (rxCharsGE isPySpace 0) (fun _ =>
  rxBind (rxCharsGE nonSpaceChar 1) (fun pw =>
  rxPure (em, pw))))))

/-- The structured-data dict built by
`FileProcessor._extract_structured_data`, one field per key that ever
exists in it. The dict initialiser creates the PLURAL keys
(`emails` .. `ssns`), but the extraction loop iterates over
`self.patterns` whose keys are SINGULAR (`email` .. `ssn`) and assigns
`extracted[data_type]`, creating new singular keys and never touching the
plural ones — only `credentials` and `raw_content` are written under the
keys they were initialised with. -/
structure Extracted where
  email : List (List Char)
  password : List (List Char)
  username : List (List Char)
  domain : List (List Char)
  ip_address : List (List Char)
  phone : List (List Char)
  credit_card : List (List Char)
  ssn : List (List Char)
  emails : List (List Char)
  passwords : List (List Char)
  usernames : List (List Char)
  domains : List (List Char)
  ip_addresses : List (List Char)
  phones : List (List Char)
  credit_cards : List (List Char)
  ssns : List (List Char)
  credentials : List (List Char × List Char)
  raw_content : List Char
deriving DecidableEq, Repr

/-- Embedding of `FileProcessor._extract_structured_data`: run every
pattern of the table over the content, deduplicate each type's matches,
post-filter password matches (strip quotes, keep length > 3), extract
credential pairs with the two `email SEP password` patterns keeping pairs
whose stripped password has length > 3, deduplicate credential pairs by
the (email, password) key, and carry a 10000-character preview. The
pattern loop stores each type's matches under the SINGULAR pattern name,
so the plural fields keep their initial empty lists. -/
def extract_structured_data (content : List Char) : Extracted :=
  let passwordMatches := findall passwordP content
  let pairs1 := findall (credPairP (fun c => c = ':' || c = '|')) content
  let pairs2 := findall (credPairP (fun c => c = ',' || c = ';')) content
  let rawPairs := (pairs1 ++ pairs2).filterMap (fun ep =>
    if 3 < (pyStrip ep.2).length then some (pyStrip ep.1, pyStrip ep.2) else none)
  { email := dedupKeep (findall emailP content)
    password := dedupKeep ((passwordMatches.filter
      (fun m => 3 < (stripQuotes m).length)).map stripQuotes)
    username := dedupKeep (findall usernameP content)
    domain := dedupKeep (findall domainP content)
    ip_address := dedupKeep (findall ipP content)
    phone := dedupKeep (findall phoneP content)
    credit_card := dedupKeep (findall creditCardP content)
    ssn := dedupKeep (findall ssnP content)
    emails := []
    passwords := []
    usernames := []
    domains := []
    ip_addresses := []
    phones := []
    credit_cards := []
    ssns := []
    credentials := dedupKeep rawPairs
    raw_content := content.take 10000 }

/-- Embedding of `FileProcessor._calculate_risk_score`: weighted sum over
the entries the `scores` table names — the PLURAL dict keys plus
`credentials` — capped at 100. Because the extraction loop only ever
populates the singular keys, the plural counts of a real extraction
result are all zero. -/
def calculate_risk_score (e : Extracted) : Nat :=
  min (e.emails.length * 1 + e.passwords.length * 3 + e.usernames.length * 1 +
    e.domains.length * 1 + e.ip_addresses.length * 2 + e.phones.length * 2 +
    e.credit_cards.length * 10 + e.ssns.length * 10 + e.credentials.length * 5) 100

/-- Embedding of `process_file_task` (socradar/tasks.py):
`processed_file.is_sensitive = result['risk_score'] > 50`. -/
def is_sensitive_flag (riskScore : Nat) : Bool :=
  riskScore > 50


/-! ## Credential Matcher (`scripts/matching/credential_matcher.py`) -/

/-- A monitored credential (relevant fields of `api.models.MonitoredCredential`). -/
structure MonitoredCredential where
  id : Nat
  credential_type : List Char
  value : List Char
  is_active : Bool
deriving DecidableEq, Repr

/-- The body of one OpenSearch query built by the `_search_*_patterns`
methods: either a `match` on `message_text` or a `wildcard` on it. -/
inductive QueryKind where
  | matchText (value : List Char)
  | wildcard (pat : List Char)
deriving DecidableEq, Repr

/-- One corpus query: its kind plus the `message_date >= cutoff` range. -/
structure CorpusQuery where
  kind : QueryKind
  cutoff : Int
deriving DecidableEq, Repr

/-- The domain part of an email value, modelling
`email_value.split('@')[1] if '@' in email_value else None` followed by
the truthiness test `if domain:` (an empty part counts as absent). -/
def emailDomainPart (v : List Char) : Option (List Char) :=
  match afterSubstr "@".data v with
  | none => none
  | some rest =>
    let d := rest.takeWhile (fun c => c ≠ '@')
    if d = [] then none else some d

/-- Queries of `_search_email_patterns`: exact lowered value, plus the
domain part alone when the value has one. -/
def email_queries (v : List Char) (cutoff : Int) : List CorpusQuery :=
  let ev := lowerList v
  ⟨.matchText ev, cutoff⟩ ::
    (match emailDomainPart ev with
     | some d => [⟨.matchText d, cutoff⟩]
     | none => [])

/-- Queries of `_search_username_patterns`: exact lowered value plus the
wildcard `*value*`. -/
def username_queries (v : List Char) (cutoff : Int) : List CorpusQuery :=
  let uv := lowerList v
  [⟨.matchText uv, cutoff⟩, ⟨.wildcard ('*' :: uv ++ ['*']), cutoff⟩]

/-- Queries of `_search_domain_patterns`: exact lowered value plus the
wildcard `*.value`. -/
def domain_queries (v : List Char) (cutoff : Int) : List CorpusQuery :=
  let dv := lowerList v
  [⟨.matchText dv, cutoff⟩, ⟨.wildcard ('*' :: '.' :: dv), cutoff⟩]

/-- Normalisation `re.sub(r'[^\d+]', '', phone)`: keep digits and `+`. -/
def normalizePhone (v : List Char) : List Char :=
  v.filter (fun c => c.isDigit || c = '+')

/-- Queries of `_search_phone_patterns`: raw value plus digits-only form. -/
def phone_queries (v : List Char) (cutoff : Int) : List CorpusQuery :=
  [⟨.matchText v, cutoff⟩, ⟨.matchText (normalizePhone v), cutoff⟩]

/-- Queries of `_search_api_key_patterns`: exact value plus the prefix
wildcard on the first 8 characters. -/
def api_key_queries (v : List Char) (cutoff : Int) : List CorpusQuery :=
  [⟨.matchText v, cutoff⟩, ⟨.wildcard (v.take 8 ++ ['*']), cutoff⟩]

/-- Queries of `_search_password_patterns`: exact value only. -/
def password_queries (v : List Char) (cutoff : Int) : List CorpusQuery :=
  [⟨.matchText v, cutoff⟩]

/-- A ranked corpus hit, the fields of `hit['_score']`/`hit['_source']`
that the matcher reads. -/
structure Hit where
  score : ℚ
  message_text : List Char
  extracted_keys : List (List Char)
  message_date : Int
deriving DecidableEq

/-- The external corpus: each query either fails (unreachable corpus, any
query exception) or returns ranked hits. -/
def Corpus : Type :=
  CorpusQuery → Except Unit (List Hit)

/-- Embedding of `CredentialMatcher._calculate_confidence`: normalised
base score, +0.2 when the search type is a key of the hit's structured
extraction map, and one elif-chained +0.1 context boost, capped at 1. -/
def calculate_confidence (opensearch_score : ℚ) (search_type : List Char)
    (extracted_keys : List (List Char)) (message_text_raw : List Char) : ℚ :=
  let base := min (opensearch_score / 10) 1
  let message_text := lowerList message_text_raw
  let base := if search_type ∈ extracted_keys then base + 2/10 else base
  let base :=
    if search_type = "email".data ∧ '@' ∈ message_text then base + 1/10
    else if search_type = "domain".data ∧
        (containsSubstr ".com".data message_text ∨ containsSubstr ".org".data message_text) then
      base + 1/10
    else if search_type = "phone".data ∧ hasDigitRun 3 message_text then base + 1/10
    else base
  min base 1

/-- One match record as assembled in `_execute_queries` (the fields later
consumed: credential id, confidence, timestamp, search type, raw score). -/
structure MatchResult where
  credId : Nat
  confidence : ℚ
  timestamp : Int
  search_type : List Char
  opensearch_score : ℚ
deriving DecidableEq

/-- Embedding of `CredentialMatcher._execute_queries`: run each query,
skip (continue) any query whose execution raises, and turn each hit of a
successful query into a match record. -/
def execute_queries (corpus : Corpus) (qs : List CorpusQuery)
    (credId : Nat) (search_type : List Char) : List MatchResult :=
  qs.flatMap (fun q =>
    match corpus q with
    | .error _ => []
    | .ok hits => hits.map (fun h =>
        { credId := credId
          confidence := calculate_confidence h.score search_type h.extracted_keys h.message_text
          timestamp := h.message_date
          search_type := search_type
          opensearch_score := h.score }))

/-- Embedding of `CredentialMatcher._search_for_credential`: dispatch on
the credential type; unknown types yield no matches. -/
def search_for_credential (corpus : Corpus) (c : MonitoredCredential) (cutoff : Int) :
    List MatchResult :=
  if c.credential_type = "email".data then
    execute_queries corpus (email_queries c.value cutoff) c.id "email".data
  else if c.credential_type = "username".data then
    execute_queries corpus (username_queries c.value cutoff) c.id "username".data
  else if c.credential_type = "domain".data then
    execute_queries corpus (domain_queries c.value cutoff) c.id "domain".data
  else if c.credential_type = "phone".data then
    execute_queries corpus (phone_queries c.value cutoff) c.id "phone".data
  else if c.credential_type = "api_key".data then
    execute_queries corpus (api_key_queries c.value cutoff) c.id "api_key".data
  else if c.credential_type = "password".data then
    execute_queries corpus (password_queries c.value cutoff) c.id "password".data
  else []

/-- The queries `search_for_credential` issues for a credential. -/
def queries_of_credential (c : MonitoredCredential) (cutoff : Int) : List CorpusQuery :=
  if c.credential_type = "email".data then email_queries c.value cutoff
  else if c.credential_type = "username".data then username_queries c.value cutoff
  else if c.credential_type = "domain".data then domain_queries c.value cutoff
  else if c.credential_type = "phone".data then phone_queries c.value cutoff
  else if c.credential_type = "api_key".data then api_key_queries c.value cutoff
  else if c.credential_type = "password".data then password_queries c.value cutoff
  else []

/-- Descending (confidence, timestamp) comparison used to order matches,
modelling `matches.sort(key=lambda x: (x['confidence'], x['timestamp']), reverse=True)`. -/
def matchGEDesc (a b : MatchResult) : Bool :=
  decide (b.confidence < a.confidence) ||
    (decide (a.confidence = b.confidence) && decide (b.timestamp ≤ a.timestamp))

/-- Stable insertion into a descending-sorted match list. -/
def insertMatchDesc (a : MatchResult) : List MatchResult → List MatchResult
  | [] => [a]
  | b :: rest =>
    if matchGEDesc a b then a :: b :: rest else b :: insertMatchDesc a rest

/-- Stable sort of matches by (confidence, timestamp) descending. -/
def sortMatchesDesc (l : List MatchResult) : List MatchResult :=
  l.foldr insertMatchDesc []

/-- Embedding of `CredentialMatcher.find_matches_for_user`: search each of
the owner's active monitored credentials and sort all matches by
(confidence, timestamp) descending. -/
def find_matches_for_user (corpus : Corpus) (creds : List MonitoredCredential)
    (cutoff : Int) : List MatchResult :=
  sortMatchesDesc ((creds.filter (fun c => c.is_active)).flatMap
    (fun c => search_for_credential corpus c cutoff))

/-- Embedding of the severity derivation in
`CredentialMatcher.create_alert_from_match` (credential_matcher.py
lines 347-353). -/
def alert_severity (confidence : ℚ) (credential_type : List Char) : List Char :=
  if 8/10 < confidence then
    if credential_type ∈ ["password".data, "api_key".data] then "critical".data
    else "high".data
  else if 6/10 < confidence then
    if credential_type ∈ ["password".data, "api_key".data] then "high".data
    else "medium".data
  else "medium".data

/-! ## Alert Emitter (`process_matches_for_user`)

The relational store is modelled by explicit state passing over the list
of alert records (each alert carries its `CredentialLeak`'s monitored
credential and leaked value, which the dedup query joins through). -/

/-- One persisted alert joined with its credential leak's dedup-relevant
fields. -/
structure AlertRec where
  owner : Nat
  credId : Nat
  leaked_value : List Char
  created_at : Int
deriving DecidableEq

/-- The pre-insert dedup query of `process_matches_for_user`: an alert of
this owner for the same monitored credential and leaked value created
within the last hour. -/
def existing_alert_within_hour (alerts : List AlertRec) (owner credId : Nat)
    (value : List Char) (now : Int) : Bool :=
  alerts.any (fun a =>
    decide (a.owner = owner) && decide (a.credId = credId) &&
    decide (a.leaked_value = value) && decide (now - 3600 ≤ a.created_at))

/-- Embedding of `create_alert_from_match` (happy path): persist an alert
whose leak carries `leaked_value = credential.value`, created now. -/
def create_alert_from_match (alerts : List AlertRec) (owner : Nat)
    (c : MonitoredCredential) (now : Int) : List AlertRec :=
  { owner := owner, credId := c.id, leaked_value := c.value, created_at := now } :: alerts

/-- One iteration of the match loop of `process_matches_for_user`: skip
when the dedup query finds an existing alert, otherwise create one. -/
def process_one_match (alerts : List AlertRec) (owner : Nat)
    (c : MonitoredCredential) (now : Int) : List AlertRec × Nat :=
  if existing_alert_within_hour alerts owner c.id c.value now then (alerts, 0)
  else (create_alert_from_match alerts owner c now, 1)

/-- Embedding of `CredentialMatcher.process_matches_for_user`: fold the
dedup-then-create step over the found matches (each match carries its
monitored credential), returning the new store and the count of created
alerts. -/
def process_matches_for_user (alerts : List AlertRec) (owner : Nat)
    (matchCreds : List MonitoredCredential) (now : Int) : List AlertRec × Nat :=
  matchCreds.foldl (fun st c =>
    let r := process_one_match st.1 owner c now
    (r.1, st.2 + r.2)) (alerts, 0)

/-! ## Link Validator (`socradar/utils.py`) -/

/-- Model of `urllib.parse.urlparse(url).netloc` for `scheme://...` URLs:
the text after the first `://` up to the next `/`, `?` or `#`. -/
def netloc (url : List Char) : List Char :=
  match afterSubstr "://".data url with
  | some rest => rest.takeWhile (fun c => !(c = '/' || c = '?' || c = '#'))
  | none => []

/-- The Telegram domain list of `is_telegram_link`. -/
def telegram_domains : List (List Char) :=
  ["t.me".data, "telegram.me".data, "telegram.org".data,
   "web.telegram.org".data, "desktop.telegram.org".data]

/-- Embedding of `is_telegram_link`: some Telegram domain occurs as a
substring of the URL's lowercased network location. -/
def is_telegram_link (url : List Char) : Bool :=
  let domain := lowerList (netloc url)
  telegram_domains.any (fun d => containsSubstr d domain)

/-- The shortener-service indicator list of `calculate_risk_score`. -/
def shortener_names : List (List Char) :=
  ["bit.ly".data, "tinyurl".data, "short.link".data, "goo.gl".data,
   "t.co".data, "is.gd".data, "v.gd".data, "ow.ly".data, "buff.ly".data]

/-- The executable-like extension list of `calculate_risk_score`. -/
def exec_extensions : List (List Char) :=
  [".exe".data, ".bat".data, ".cmd".data, ".scr".data, ".pif".data]

/-- Embedding of `calculate_risk_score` (socradar/utils.py, the link risk
scorer): accumulate the five indicator scores, apply the Telegram
reduction floored at 0, and clamp the result to [0, 100]. -/
def link_risk_score (url : List Char) (is_telegram : Bool) : Int :=
  let domain := lowerList (netloc url)
  let s0 : Int := 0
  let s1 := if shortener_names.any (fun n => containsSubstr n domain) then s0 + 30 else s0
  let s2 := if hasDigitRun 4 domain then s1 + 20 else s1
  let s3 := if 50 < domain.length then s2 + 15 else s2
  let s4 := if containsSubstr "phishing".data domain || containsSubstr "scam".data domain
            then s3 + 50 else s3
  let s5 := if exec_extensions.any (fun e => containsSubstr e (lowerList url))
            then s4 + 40 else s4
  let s6 := if is_telegram then max 0 (s5 - 20) else s5
  min 100 (max 0 s6)

/-- The suspicion flag set by `process_telegram_message_links`:
`is_suspicious = risk_score > 50`. -/
def is_suspicious_flag (riskScore : Int) : Bool :=
  riskScore > 50

/-- The risk computation of `process_telegram_message_links` for one URL:
classify as Telegram link, then score. -/
def process_link_risk (url : List Char) : Int :=
  link_risk_score url (is_telegram_link url)

/-! ## Claim-side (specification) formulations

Each `*_spec` definition below follows the wording of the specification,
to be compared with the corresponding definition embedded from the
source. -/

/-- Suffix test, Python `s.endswith(t)`. -/
def endsWithList (needle hay : List Char) : Bool :=
  needle.isSuffixOf hay

/-- Claim-side risk score (C2): `min(100, Σ count(type) × weight(type))`
over the indicators the extraction actually found, with weights email=1,
username=1, domain=1, ip=2, phone=2, password=3, credential_pair=5,
credit_card=10, ssn=10. -/
def risk_score_spec (e : Extracted) : Nat :=
  min 100 (e.email.length * 1 + e.username.length * 1 + e.domain.length * 1 +
    e.ip_address.length * 2 + e.phone.length * 2 + e.password.length * 3 +
    e.credentials.length * 5 + e.credit_card.length * 10 + e.ssn.length * 10)

/-- Claim-side type-specific context boost (C3): email type with `@` in
the hit text; domain type with a common TLD substring; phone type with a
digit run of length ≥ 3. -/
def context_boost_spec (search_type : List Char) (text : List Char) : Prop :=
  (search_type = "email".data ∧ '@' ∈ text) ∨
  (search_type = "domain".data ∧
    (containsSubstr ".com".data text ∨ containsSubstr ".org".data text)) ∨
  (search_type = "phone".data ∧ hasDigitRun 3 text = true)

instance (st text : List Char) : Decidable (context_boost_spec st text) := by
  unfold context_boost_spec
  infer_instance

/-- Claim-side confidence (C3): base `min(score/10, 1)`, +0.2 for a
structured-map key, +0.1 for the context boost, clamped to at most 1. -/
def confidence_spec (score : ℚ) (search_type : List Char)
    (extracted_keys : List (List Char)) (text : List Char) : ℚ :=
  min (min (score / 10) 1 + (if search_type ∈ extracted_keys then 2/10 else 0) +
       (if context_boost_spec search_type (lowerList text) then 1/10 else 0)) 1

/-- Claim-side severity (C4): critical when c > 0.8 with a
password/api_key type; high when c > 0.8 with another type or when
0.6 < c ≤ 0.8 with a password/api_key type; medium otherwise. -/
def severity_spec (c : ℚ) (t : List Char) : List Char :=
  if 8/10 < c ∧ t ∈ ["password".data, "api_key".data] then "critical".data
  else if (8/10 < c ∧ t ∉ ["password".data, "api_key".data]) ∨
      (6/10 < c ∧ c ≤ 8/10 ∧ t ∈ ["password".data, "api_key".data]) then "high".data
  else "medium".data

/-- Claim-side link risk score as literally stated by C6: the +40 term
requires the URL to END in an executable-like extension. -/
def link_risk_score_claimC6 (url : List Char) (is_telegram : Bool) : Int :=
  let domain := lowerList (netloc url)
  let s : Int :=
    (if shortener_names.any (fun n => containsSubstr n domain) then 30 else 0) +
    (if hasDigitRun 4 domain then 20 else 0) +
    (if 50 < domain.length then 15 else 0) +
    (if containsSubstr "phishing".data domain || containsSubstr "scam".data domain
     then 50 else 0) +
    (if exec_extensions.any (fun e => endsWithList e (lowerList url)) then 40 else 0)
  min 100 (max 0 (if is_telegram then max 0 (s - 20) else s))

/-- Amended claim-side link risk score (C6): the +40 term fires when the
lowercased URL CONTAINS an executable-like extension as a substring. -/
def link_risk_score_amendedC6 (url : List Char) (is_telegram : Bool) : Int :=
  let domain := lowerList (netloc url)
  let s : Int :=
    (if shortener_names.any (fun n => containsSubstr n domain) then 30 else 0) +
    (if hasDigitRun 4 domain then 20 else 0) +
    (if 50 < domain.length then 15 else 0) +
    (if containsSubstr "phishing".data domain || containsSubstr "scam".data domain
     then 50 else 0) +
    (if exec_extensions.any (fun e => containsSubstr e (lowerList url)) then 40 else 0)
  min 100 (max 0 (if is_telegram then max 0 (s - 20) else s))

/-- Per-type indicator counts of an extraction result (C9). -/
structure RiskCounts where
  emails : Nat
  passwords : Nat
  usernames : Nat
  domains : Nat
  ip_addresses : Nat
  phones : Nat
  credit_cards : Nat
  ssns : Nat
  credentials : Nat
deriving DecidableEq, Repr

/-- The risk score as a function of per-type counts only. -/
def risk_score_of_counts (c : RiskCounts) : Nat :=
  min (c.emails * 1 + c.passwords * 3 + c.usernames * 1 + c.domains * 1 +
    c.ip_addresses * 2 + c.phones * 2 + c.credit_cards * 10 + c.ssns * 10 +
    c.credentials * 5) 100

/-- The counts the scorer reads from an extraction result: the plural
dict entries plus the credential pairs. -/
def countsOf (e : Extracted) : RiskCounts :=
  { emails := e.emails.length, passwords := e.passwords.length,
    usernames := e.usernames.length, domains := e.domains.length,
    ip_addresses := e.ip_addresses.length, phones := e.phones.length,
    credit_cards := e.credit_cards.length, ssns := e.ssns.length,
    credentials := e.credentials.length }

/-- Pointwise order on per-type counts. -/
def countsLE (c1 c2 : RiskCounts) : Prop :=
  c1.emails ≤ c2.emails ∧ c1.passwords ≤ c2.passwords ∧
  c1.usernames ≤ c2.usernames ∧ c1.domains ≤ c2.domains ∧
  c1.ip_addresses ≤ c2.ip_addresses ∧ c1.phones ≤ c2.phones ∧
  c1.credit_cards ≤ c2.credit_cards ∧ c1.ssns ≤ c2.ssns ∧
  c1.credentials ≤ c2.credentials

instance (c1 c2 : RiskCounts) : Decidable (countsLE c1 c2) := by
  unfold countsLE
  infer_instance

/-- Claim-side Telegram-link predicate (C10): some listed Telegram domain
occurs as a substring of the URL's lowercased network location. -/
def telegram_link_spec (url : List Char) : Prop :=
  ∃ d ∈ telegram_domains, containsSubstr d (lowerList (netloc url)) = true


/-- The end-to-end scenario text of the specification (C5). -/
def c5_text : List Char := "admin@corp.com:Sup3r$ecret!\nnormal text".data

/-- A text carrying exactly two SSN indicators and nothing else
(C2/C9 failing input). -/
def ssn_text : List Char := "111-22-3333 and 444-55-6666".data

/-- The accumulated link risk score before the Telegram reduction and the
final clamp (the five indicator contributions of `calculate_risk_score`
in socradar/utils.py). -/
def link_risk_score_pre (url : List Char) : Int :=
  let domain := lowerList (netloc url)
  (if shortener_names.any (fun n => containsSubstr n domain) then 30 else 0) +
  (if hasDigitRun 4 domain then 20 else 0) +
  (if 50 < domain.length then 15 else 0) +
  (if containsSubstr "phishing".data domain || containsSubstr "scam".data domain
   then 50 else 0) +
  (if exec_extensions.any (fun e => containsSubstr e (lowerList url)) then 40 else 0)

/-! ## Helper lemmas -/

theorem mem_of_mem_dedupAux [DecidableEq α] {seen l : List α} {a : α}
    (h : a ∈ dedupAux seen l) : a ∈ l := by
  induction l generalizing seen with
  | nil => simp [dedupAux] at h
  | cons b rest ih =>
    simp only [dedupAux] at h
    split at h
    · exact List.mem_cons_of_mem _ (ih h)
    · rcases List.mem_cons.mp h with h | h
      · exact h ▸ List.mem_cons_self b rest
      · exact List.mem_cons_of_mem _ (ih h)

theorem dedupAux_not_mem_seen [DecidableEq α] {seen l : List α} {a : α}
    (h : a ∈ dedupAux seen l) : a ∉ seen := by
  induction l generalizing seen with
  | nil => simp [dedupAux] at h
  | cons b rest ih =>
    simp only [dedupAux] at h
    split at h
    · exact ih h
    · rcases List.mem_cons.mp h with h | h
      · subst h; assumption
      · intro hs
        exact (ih h) (List.mem_cons_of_mem _ hs)

theorem dedupAux_nodup [DecidableEq α] (seen l : List α) :
    (dedupAux seen l).Nodup := by
  induction l generalizing seen with
  | nil => simp [dedupAux]
  | cons b rest ih =>
    simp only [dedupAux]
    split
    · exact ih seen
    · refine List.nodup_cons.mpr ⟨?_, ih (b :: seen)⟩
      intro hmem
      exact (dedupAux_not_mem_seen hmem) (List.mem_cons_self b seen)

theorem mem_of_mem_dedupKeep [DecidableEq α] {l : List α} {a : α}
    (h : a ∈ dedupKeep l) : a ∈ l :=
  mem_of_mem_dedupAux h

theorem dedupKeep_nodup [DecidableEq α] (l : List α) : (dedupKeep l).Nodup :=
  dedupAux_nodup [] l

theorem execute_queries_all_fail (corpus : Corpus) (qs : List CorpusQuery)
    (i : Nat) (st : List Char) (h : ∀ q ∈ qs, corpus q = .error ()) :
    execute_queries corpus qs i st = [] := by
  induction qs with
  | nil => rfl
  | cons q rest ih =>
    simp only [execute_queries, List.flatMap_cons] at *
    rw [h q (List.mem_cons_self q rest)]
    exact ih (fun q' hq' => h q' (List.mem_cons_of_mem _ hq'))

theorem execute_queries_congr (corpus corpus2 : Corpus) (qs : List CorpusQuery)
    (i : Nat) (st : List Char) (h : ∀ q ∈ qs, corpus q = corpus2 q) :
    execute_queries corpus qs i st = execute_queries corpus2 qs i st := by
  induction qs with
  | nil => rfl
  | cons q rest ih =>
    simp only [execute_queries, List.flatMap_cons] at *
    rw [h q (List.mem_cons_self q rest),
      ih (fun q' hq' => h q' (List.mem_cons_of_mem _ hq'))]

theorem search_for_credential_eq (corpus : Corpus) (c : MonitoredCredential)
    (cutoff : Int) :
    search_for_credential corpus c cutoff =
      execute_queries corpus (queries_of_credential c cutoff) c.id c.credential_type := by
  unfold search_for_credential queries_of_credential
  split_ifs with h1 h2 h3 h4 h5 h6 <;> simp_all [execute_queries]

/-! ## Claim theorems -/

/-- C2 (code bug): the scorer reads the plural dict keys that the
extraction loop never populates, so on every real extraction result the
risk score degenerates to `min(5 × #credential_pairs, 100)` instead of the
claimed (and clearly intended — the scorer's weight table names all nine
types) weighted sum over the found indicator counts: a text whose
extraction carries two SSN indicators scores 0 where the claimed formula
gives 20. The `is_sensitive = score > 50` part does hold. -/
theorem C2_risk_score_key_mismatch :
    (∀ content : List Char, calculate_risk_score (extract_structured_data content) =
      min ((extract_structured_data content).credentials.length * 5) 100) ∧
    (∀ r : Nat, is_sensitive_flag r = true ↔ 50 < r) ∧
    (extract_structured_data ssn_text).ssn.length = 2 ∧
    calculate_risk_score (extract_structured_data ssn_text) = 0 ∧
    risk_score_spec (extract_structured_data ssn_text) = 20 := by
  refine ⟨?_, ?_, by decide, by decide, by decide⟩
  · intro content
    simp only [calculate_risk_score, extract_structured_data, List.length_nil]
    omega
  · intro r
    simp [is_sensitive_flag]

/-- C9 (code bug): the score the program computes stays in [0, 100] and
is a function of the counts the scorer reads, but those are the plural
dict entries the extraction loop never writes — so a result whose
extraction carries exactly 2 SSN indicators (and nothing else) scores 0,
not the claimed min(2 × 10, 100) = 20; the claimed value is what the
intended weighted sum over the found indicators gives. -/
theorem C9_risk_score_ssn_zero :
    (∀ c : RiskCounts, risk_score_of_counts c ≤ 100) ∧
    (∀ e : Extracted, calculate_risk_score e = risk_score_of_counts (countsOf e)) ∧
    (extract_structured_data ssn_text).ssn = ["111-22-3333".data, "444-55-6666".data] ∧
    (extract_structured_data ssn_text).ssns = [] ∧
    calculate_risk_score (extract_structured_data ssn_text) = 0 ∧
    risk_score_spec (extract_structured_data ssn_text) = 20 := by
  refine ⟨?_, ?_, by decide, by decide, by decide, by decide⟩
  · intro c
    unfold risk_score_of_counts
    omega
  · intro e
    rfl

/-- C4: alert creation assigns severity critical when confidence > 0.8 and
the credential type is password or api_key; high when confidence > 0.8
with another type or when 0.6 < confidence ≤ 0.8 with a password/api_key
type; and medium otherwise — with the three concrete instances of the
specification's severity table. -/
theorem C4_severity_table :
    (∀ (c : ℚ) (t : List Char), alert_severity c t = severity_spec c t) ∧
    alert_severity (85/100) "password".data = "critical".data ∧
    alert_severity (85/100) "email".data = "high".data ∧
    (∀ t : List Char, alert_severity (5/10) t = "medium".data) := by
  refine ⟨?_, by norm_num [alert_severity]; try decide, by norm_num [alert_severity]; try decide, ?_⟩
  · intro c t
    unfold alert_severity severity_spec
    split_ifs <;> first
      | rfl
      | (exfalso; simp_all [not_lt]; try casesm* _ ∨ _, _ ∧ _
         all_goals linarith)
  · intro t
    unfold alert_severity
    norm_num

/-- C3: per corpus hit, the match confidence is
`min(relevance/10, 1) + 0.2·[type is a structured key] + 0.1·[context boost]`
clamped to at most 1, and the concrete instance — relevance 10, an
email-type entry whose hit has "email" among its structured keys and `@`
in its text — yields confidence exactly 1. -/
theorem C3_confidence_formula :
    (∀ (s : ℚ) (st : List Char) (keys : List (List Char)) (text : List Char),
      calculate_confidence s st keys text = confidence_spec s st keys text) ∧
    calculate_confidence 10 "email".data ["email".data] "leak: a@b.com".data = 1 := by
  have hgen : ∀ (s : ℚ) (st : List Char) (keys : List (List Char)) (text : List Char),
      calculate_confidence s st keys text = confidence_spec s st keys text := by
    intro s st keys text
    simp only [calculate_confidence, confidence_spec, context_boost_spec]
    by_cases hA : st = "email".data ∧ '@' ∈ lowerList text
    · rw [if_pos hA, if_pos (Or.inl hA)]
      by_cases hm : st ∈ keys
      · rw [if_pos hm, if_pos hm]
      · rw [if_neg hm, if_neg hm, add_zero]
    · rw [if_neg hA]
      by_cases hB : st = "domain".data ∧
          (containsSubstr ".com".data (lowerList text) = true ∨
           containsSubstr ".org".data (lowerList text) = true)
      · rw [if_pos hB, if_pos (Or.inr (Or.inl hB))]
        by_cases hm : st ∈ keys
        · rw [if_pos hm, if_pos hm]
        · rw [if_neg hm, if_neg hm, add_zero]
      · rw [if_neg hB]
        by_cases hC : st = "phone".data ∧ hasDigitRun 3 (lowerList text) = true
        · rw [if_pos hC, if_pos (Or.inr (Or.inr hC))]
          by_cases hm : st ∈ keys
          · rw [if_pos hm, if_pos hm]
          · rw [if_neg hm, if_neg hm, add_zero]
        · rw [if_neg hC, if_neg (show ¬(st = "email".data ∧ '@' ∈ lowerList text ∨
              st = "domain".data ∧ (containsSubstr ".com".data (lowerList text) = true ∨
                containsSubstr ".org".data (lowerList text) = true) ∨
              st = "phone".data ∧ hasDigitRun 3 (lowerList text) = true) from
            fun h => h.elim hA (fun h' => h'.elim hB hC))]
          by_cases hm : st ∈ keys
          · rw [if_pos hm, if_pos hm, add_zero]
          · rw [if_neg hm, if_neg hm, add_zero, add_zero]
  refine ⟨hgen, ?_⟩
  rw [hgen]
  have hboost : context_boost_spec "email".data (lowerList "leak: a@b.com".data) :=
    Or.inl ⟨rfl, by decide⟩
  unfold confidence_spec
  rw [if_pos (by decide : ("email".data ∈ [("email".data : List Char)])),
    if_pos hboost]
  norm_num

/-- C5 counterexample: on the text
`"admin@corp.com:Sup3r$ecret!\nnormal text"` the extractor finds zero
password indicators (the password rule requires a `password|pass|pwd`
keyword before the value) and the program's risk score is 5 — the scorer
reads the never-populated plural keys, so only the credential pair
contributes — so the claimed "exactly 1 password indicator" and "score 9"
are both false. -/
theorem C5_counterexample :
    ((extract_structured_data c5_text).password.length = 0 ∧
     calculate_risk_score (extract_structured_data c5_text) = 5) ∧
    ¬ ((extract_structured_data c5_text).password.length = 1 ∧
       calculate_risk_score (extract_structured_data c5_text) = 9) := by
  decide

/-- C5 amended: extracting from
`"admin@corp.com:Sup3r$ecret!\nnormal text"` yields exactly 1 email
indicator, exactly 1 credential pair, zero password indicators, one
domain indicator (`corp.com`), and the program's aggregate risk score is
5 (only the credential pair reaches the scorer; the weighted sum over the
found indicators would give 7). -/
theorem C5_extraction_scenario :
    (extract_structured_data c5_text).email = ["admin@corp.com".data] ∧
    (extract_structured_data c5_text).credentials =
      [("admin@corp.com".data, "Sup3r$ecret!".data)] ∧
    (extract_structured_data c5_text).password = [] ∧
    (extract_structured_data c5_text).username = [] ∧
    (extract_structured_data c5_text).domain = ["corp.com".data] ∧
    (extract_structured_data c5_text).ip_address = [] ∧
    (extract_structured_data c5_text).phone = [] ∧
    (extract_structured_data c5_text).credit_card = [] ∧
    (extract_structured_data c5_text).ssn = [] ∧
    calculate_risk_score (extract_structured_data c5_text) = 5 ∧
    risk_score_spec (extract_structured_data c5_text) = 7 := by
  decide

/-- C7: the credential-pair extractor keeps only pairs whose password
portion has length > 3, deduplicates by the (email, password) pair, and
on `"user@example.com:password123"` produces exactly the one pair
(user@example.com, password123). -/
theorem C7_credential_pairs :
    (extract_structured_data "user@example.com:password123".data).credentials =
      [("user@example.com".data, "password123".data)] ∧
    (∀ (content : List Char) (p : List Char × List Char),
      p ∈ (extract_structured_data content).credentials → 3 < p.2.length) ∧
    (∀ content : List Char, (extract_structured_data content).credentials.Nodup) := by
  refine ⟨by decide, ?_, ?_⟩
  · intro content p hp
    simp only [extract_structured_data] at hp
    have hp' := mem_of_mem_dedupKeep hp
    rcases List.mem_filterMap.mp hp' with ⟨ep, _, heq⟩
    by_cases h : 3 < (pyStrip ep.2).length
    · rw [if_pos h] at heq
      cases heq
      exact h
    · rw [if_neg h] at heq
      cases heq
  · intro content
    simp only [extract_structured_data]
    exact dedupKeep_nodup _

/-- Witness for C7's membership hypothesis at the concrete input. -/
theorem C7_witness :
    (("user@example.com".data, "password123".data) ∈
      (extract_structured_data "user@example.com:password123".data).credentials) ∧
    3 < ("user@example.com".data, "password123".data).2.length :=
  ⟨by decide,
   C7_credential_pairs.2.1 "user@example.com:password123".data
     ("user@example.com".data, "password123".data) (by decide)⟩

/-- C6 counterexample: for `http://example.com/x.exe.txt` the code scores
40 (the `.exe` substring check fires anywhere in the URL), while the
claimed formula — +40 only when the URL ENDS in an executable-like
extension — gives 0, so the claimed score formula is false for this URL. -/
theorem C6_counterexample :
    link_risk_score "http://example.com/x.exe.txt".data false = 40 ∧
    link_risk_score_claimC6 "http://example.com/x.exe.txt".data false = 0 ∧
    link_risk_score "http://example.com/x.exe.txt".data false ≠
      link_risk_score_claimC6 "http://example.com/x.exe.txt".data false := by
  refine ⟨by decide, by decide, by decide⟩

/-- C6 amended: the link risk score is the sum of the five indicator
contributions — with the +40 term firing when the lowercased URL CONTAINS
an executable-like extension as a substring, not only at the end — with
the Telegram reduction floored at 0 and the final clamp to [0, 100];
`is_suspicious` holds exactly when the score exceeds 50; `http://bit.ly/xyz`
scores exactly 30 and is not suspicious, and a shortener plus a long digit
run scores 50 and is still not suspicious. -/
theorem C6_link_risk_formula :
    (∀ (url : List Char) (tg : Bool),
      link_risk_score url tg = link_risk_score_amendedC6 url tg) ∧
    (∀ r : Int, is_suspicious_flag r = true ↔ 50 < r) ∧
    link_risk_score "http://bit.ly/xyz".data false = 30 ∧
    is_suspicious_flag (link_risk_score "http://bit.ly/xyz".data false) = false ∧
    is_telegram_link "http://bit.ly/xyz".data = false ∧
    link_risk_score "http://bit.ly12345.com/a".data false = 50 ∧
    is_suspicious_flag (link_risk_score "http://bit.ly12345.com/a".data false) = false := by
  refine ⟨?_, ?_, by decide, by decide, by decide, by decide, by decide⟩
  · intro url tg
    simp only [link_risk_score, link_risk_score_amendedC6]
    split_ifs <;> omega
  · intro r
    simp [is_suspicious_flag]

/-- C10: `is_telegram_link` returns true exactly when one of the five
Telegram domain strings occurs as a substring of the URL's lowercased
network location; consequently the host `bit.me` (which contains `t.me`)
is classified as a Telegram link, and Telegram-classified links get the
20-point reduction (floored at 0) before the final clamp, as the concrete
`scambit.me` URL shows (50 without the reduction, 30 with it). -/
theorem C10_telegram_link_substring :
    (∀ url : List Char, is_telegram_link url = true ↔ telegram_link_spec url) ∧
    is_telegram_link "http://bit.me/x".data = true ∧
    (∀ url : List Char, link_risk_score url true =
      min 100 (max 0 (max 0 (link_risk_score_pre url - 20)))) ∧
    is_telegram_link "http://scambit.me/x".data = true ∧
    process_link_risk "http://scambit.me/x".data = 30 ∧
    link_risk_score "http://scambit.me/x".data false = 50 := by
  refine ⟨?_, by decide, ?_, by decide, by decide, by decide⟩
  · intro url
    simp [is_telegram_link, telegram_link_spec, List.any_eq_true]
  · intro url
    simp only [link_risk_score, link_risk_score_pre]
    split_ifs <;> omega

/-- C1: at most one alert per (owner, credential, leaked value) within the
1-hour dedup window — when the match loop handles two identical match
events for the same credential, in one pass or in two passes within the
window, exactly one alert is created and the second candidate yields zero
alerts thanks to the pre-insert dedup query. -/
theorem C1_alert_dedup_window
    (alerts : List AlertRec) (owner : Nat) (c : MonitoredCredential) (t1 t2 : Int)
    (hclean : existing_alert_within_hour alerts owner c.id c.value t1 = false)
    (h12 : t1 ≤ t2) (hwin : t2 < t1 + 3600) :
    (process_matches_for_user alerts owner [c, c] t1).2 = 1 ∧
    (process_matches_for_user alerts owner [c] t1).2 = 1 ∧
    (process_matches_for_user
      (process_matches_for_user alerts owner [c] t1).1 owner [c] t2).2 = 0 := by
  have hself : t1 - 3600 ≤ t1 := by omega
  have hmono : t2 - 3600 ≤ t1 := by omega
  have hcons1 : existing_alert_within_hour
      ({ owner := owner, credId := c.id, leaked_value := c.value, created_at := t1 } :: alerts)
      owner c.id c.value t1 = true := by
    simp [existing_alert_within_hour, hself]
  have hcons2 : existing_alert_within_hour
      ({ owner := owner, credId := c.id, leaked_value := c.value, created_at := t1 } :: alerts)
      owner c.id c.value t2 = true := by
    simp only [existing_alert_within_hour, List.any_cons, Bool.or_eq_true,
      Bool.and_eq_true, decide_eq_true_eq]
    exact Or.inl ⟨⟨⟨trivial, trivial⟩, trivial⟩, hmono⟩
  refine ⟨?_, ?_, ?_⟩ <;>
    simp [process_matches_for_user, process_one_match, create_alert_from_match,
      hclean, hcons1, hcons2]

/-- Witness for C1 at a concrete clean store and two events 1800 seconds
apart. -/
theorem C1_witness :
    existing_alert_within_hour [] 1
        (⟨1, "password".data, "x".data, true⟩ : MonitoredCredential).id
        (⟨1, "password".data, "x".data, true⟩ : MonitoredCredential).value 0 = false ∧
    (process_matches_for_user [] 1
      [⟨1, "password".data, "x".data, true⟩, ⟨1, "password".data, "x".data, true⟩] 0).2 = 1 :=
  ⟨rfl,
   (C1_alert_dedup_window [] 1 ⟨1, "password".data, "x".data, true⟩ 0 1800
     rfl (by decide) (by decide)).1⟩

/-- C8: when every corpus query of one credential fails, that credential
contributes no matches for the pass, any credential whose queries the
corpus still answers identically is unaffected, and the owner's full
matching pass equals the pass without the failing credential — failure is
isolated per credential, not per owner. -/
theorem C8_corpus_failure_isolation
    (corpus corpus2 : Corpus) (cutoff : Int)
    (pre post : List MonitoredCredential) (c : MonitoredCredential)
    (hfail : ∀ q ∈ queries_of_credential c cutoff, corpus q = .error ()) :
    search_for_credential corpus c cutoff = [] ∧
    (∀ c' : MonitoredCredential,
      (∀ q ∈ queries_of_credential c' cutoff, corpus q = corpus2 q) →
        search_for_credential corpus c' cutoff = search_for_credential corpus2 c' cutoff) ∧
    find_matches_for_user corpus (pre ++ c :: post) cutoff =
      find_matches_for_user corpus (pre ++ post) cutoff := by
  have hempty : search_for_credential corpus c cutoff = [] := by
    rw [search_for_credential_eq]
    exact execute_queries_all_fail _ _ _ _ hfail
  refine ⟨hempty, ?_, ?_⟩
  · intro c' hagree
    rw [search_for_credential_eq, search_for_credential_eq]
    exact execute_queries_congr _ _ _ _ _ hagree
  · by_cases hc : c.is_active = true
    · simp [find_matches_for_user, List.filter_append, List.filter_cons, hc, hempty]
    · simp [find_matches_for_user, List.filter_append, List.filter_cons, hc]

/-- Witness for C8: a corpus that fails every query, a failing email
credential, and one remaining password credential answered with no hits. -/
theorem C8_witness :
    search_for_credential (fun _ => Except.error ())
      ⟨1, "email".data, "a@b.com".data, true⟩ 0 = [] ∧
    find_matches_for_user (fun _ => Except.error ())
        [⟨1, "email".data, "a@b.com".data, true⟩, ⟨2, "password".data, "p".data, true⟩] 0 =
      find_matches_for_user (fun _ => Except.error ())
        [⟨2, "password".data, "p".data, true⟩] 0 :=
  ⟨(C8_corpus_failure_isolation (fun _ => Except.error ()) (fun _ => Except.error ()) 0
      [] [⟨2, "password".data, "p".data, true⟩] ⟨1, "email".data, "a@b.com".data, true⟩
      (fun _ _ => rfl)).1,
   (C8_corpus_failure_isolation (fun _ => Except.error ()) (fun _ => Except.error ()) 0
      [] [⟨2, "password".data, "p".data, true⟩] ⟨1, "email".data, "a@b.com".data, true⟩
      (fun _ _ => rfl)).2.2⟩
